import Mathlib

/-!
Shallow embedding of `src/mutex_guard.h` (a Rust-style owning mutex for C++):
the move-only smart pointer `MutexGuard<T>` and the owning container
`Mutex<T>`, together with proofs of the specification claims about them.

Modelling conventions:
* Pointers (`T *value`, `std::mutex *mutex`) become `Option Nat`: `none` is
  `nullptr`, `some a` is the address `a` of the pointee.
* The lock states of all `std::mutex` objects live in a world `List Bool`
  indexed by address (`true` = locked).
* A `Mutex<T>` instance is a record holding its `std::mutex` state and its
  owned value; its address `a` stands for both `&mutex` and `&value`
  (both are derived from `this` in the source).
* To observe copy-vs-move semantics of the owned `T`, values are
  instrumented: a `TVal` carries its payload and a count of the copy
  constructions it went through.  C++ copy construction bumps the count,
  move construction (`std::move` + move ctor) does not.
* Side effects on `std::mutex` objects are made explicit: each guard
  operation returns the list of addresses on which it calls `unlock()`.
-/

/-- An instrumented C++ value of type `T`: `payload` is the mathematical
value, `copies` counts how many copy constructions produced it. -/
structure TVal where
  payload : Nat
  copies : Nat
deriving DecidableEq, Repr

/-- C++ copy construction of a `T`: same payload, one more copy. -/
def TVal.copyCtor (v : TVal) : TVal :=
  { v with copies := v.copies + 1 }

/-- C++ move construction of a `T` (`std::move` into a new object):
payload transferred, no copy performed. -/
def TVal.moveCtor (v : TVal) : TVal :=
  v

/-- `MutexGuard<T>` from `src/mutex_guard.h`: two raw pointers,
`T *value` and `std::mutex *mutex`; `none` models `nullptr`. -/
structure MutexGuard where
  value : Option Nat
  mutex : Option Nat
deriving DecidableEq, Repr

/-- The two-pointer constructor `MutexGuard(T *value, std::mutex *mutex)`:
stores both pointers verbatim, no validation. -/
def MutexGuard.construct (value mutex : Option Nat) : MutexGuard :=
  { value := value, mutex := mutex }

/-- `operator bool`: `return mutex != nullptr;`. -/
def MutexGuard.toBool (g : MutexGuard) : Bool :=
  g.mutex ≠ none

/-- `~MutexGuard()`: `if (mutex != nullptr) { mutex->unlock(); }`.
Returns the list of `unlock()` calls (addresses of mutexes unlocked)
that the destructor performs. -/
def MutexGuard.destructCalls (g : MutexGuard) : List Nat :=
  match g.mutex with
  | some a => [a]
  | none => []

/-- `MutexGuard(MutexGuard &&guard)`: `value = guard.value; mutex =
guard.mutex; guard.mutex = nullptr;`.  Returns (new object, moved-from
source).  No `unlock()` is called anywhere in the body. -/
def MutexGuard.moveConstruct (guard : MutexGuard) : MutexGuard × MutexGuard :=
  ({ value := guard.value, mutex := guard.mutex }, { guard with mutex := none })

/-- `operator=(MutexGuard &&guard)` on a destination object `self`:
`value = guard.value; mutex = guard.mutex; guard.mutex = nullptr;`.
Returns (destination after assignment, moved-from source, list of
`unlock()` calls performed by the body — none, the body never unlocks). -/
def MutexGuard.moveAssign (self guard : MutexGuard) :
    MutexGuard × MutexGuard × List Nat :=
  (({ self with value := guard.value, mutex := guard.mutex }),
   { guard with mutex := none }, [])

/-- `g = std::move(g)`: the three statements of `operator=` executed when
source and destination alias the same object `g`.
`value = guard.value` and `mutex = guard.mutex` are self-assignments
(no change); `guard.mutex = nullptr` then nulls the object's own
mutex pointer. -/
def MutexGuard.selfMoveAssign (g : MutexGuard) : MutexGuard :=
  let g1 : MutexGuard := { g with value := g.value }
  let g2 : MutexGuard := { g1 with mutex := g1.mutex }
  { g2 with mutex := none }

/-- `Mutex<T>` from `src/mutex_guard.h`: a `std::mutex` (its lock state)
and the owned value. -/
structure Mutex where
  locked : Bool
  value : TVal
deriving DecidableEq, Repr

/-- `explicit Mutex(T value) : value(value) {}`: the member initializer
`value(value)` copy-constructs the member from the by-value parameter
(the initializer is an lvalue, so the copy constructor is selected);
the `std::mutex` member is default-constructed, i.e. unlocked. -/
def Mutex.construct (value : TVal) : Mutex :=
  { locked := false, value := value.copyCtor }

/-- `Mutex<T>::try_lock()` for the instance at address `a`:
`if (mutex.try_lock()) return MutexGuard<T>(&value, &mutex);
return MutexGuard<T>(nullptr, nullptr);`.
`std::mutex::try_lock` succeeds exactly when the mutex is unlocked
(single-threaded, non-reentrant model).  Returns (container after,
guard). -/
def Mutex.try_lock (self : Mutex) (a : Nat) : Mutex × MutexGuard :=
  if self.locked = false then
    ({ self with locked := true }, MutexGuard.construct (some a) (some a))
  else
    (self, MutexGuard.construct none none)

/-- `Mutex<T>::lock()` for the instance at address `a`:
`mutex.lock(); return MutexGuard<T>(&value, &mutex);`.
`std::mutex::lock` acquires when the mutex is unlocked; if it is already
held (with no other thread to release it) the call blocks forever,
modelled as `none`. -/
def Mutex.lock (self : Mutex) (a : Nat) : Option (Mutex × MutexGuard) :=
  if self.locked = false then
    some ({ self with locked := true }, MutexGuard.construct (some a) (some a))
  else
    none

/-- `static T unwrap(Mutex<T>&& self) { return std::move(self.value); }`:
moves the owned value out. -/
def Mutex.unwrap (self : Mutex) : TVal :=
  self.value.moveCtor

/-- `std::mutex` is neither copy- nor move-constructible
(`mutex(const mutex&) = delete` in the standard library). -/
def stdMutexMoveConstructible : Bool := false

/-- Whether the defaulted `Mutex(Mutex &&) noexcept = default;` is a
usable (non-deleted) move constructor: a defaulted move constructor is
implicitly deleted when any non-static data member is not
move-constructible, so it needs both members (`std::mutex mutex` and
`T value`) to be movable. -/
def Mutex.moveConstructible (tMovable : Bool) : Bool :=
  stdMutexMoveConstructible && tMovable

/-- The statements a `MutexGuard` member function body can contain, at the
granularity relevant to control flow out of `operator=`. -/
inductive GuardStmt where
  | assignValue   -- value = guard.value;
  | assignMutex   -- mutex = guard.mutex;
  | nullSourceMutex -- guard.mutex = nullptr;
  | returnSelf    -- return *this;
deriving DecidableEq, Repr

/-- The body of `MutexGuard &operator=(MutexGuard &&guard)`, statement by
statement, as written in `src/mutex_guard.h` lines 47–51. -/
def moveAssignBody : List GuardStmt :=
  [GuardStmt.assignValue, GuardStmt.assignMutex, GuardStmt.nullSourceMutex]

/-- A function body with a non-void return type returns on every call
exactly when control cannot fall off its end, i.e. the body ends in a
return statement. -/
def bodyReturns (body : List GuardStmt) : Bool :=
  body.getLast? = some GuardStmt.returnSelf

/-- A world of `std::mutex` lock states, indexed by address. -/
def World := List Bool

/-- Whether the mutex at address `a` is locked in world `w`. -/
def World.lockedAt (w : World) (a : Nat) : Bool :=
  List.getD w a false

/-- Apply one `unlock()` call to the world. -/
def World.applyUnlock (w : World) (a : Nat) : World :=
  List.set w a false

/-- Apply a sequence of `unlock()` calls to the world. -/
def World.applyUnlocks (w : World) (calls : List Nat) : World :=
  calls.foldl World.applyUnlock w

/-- Repeated move construction: `moveChain g n` performs `n` successive
move constructions starting from `g`, returning the list of moved-from
husks (oldest first) and the final holder. -/
def moveChain : MutexGuard → Nat → List MutexGuard × MutexGuard
  | g, 0 => ([], g)
  | g, n + 1 =>
    let step := MutexGuard.moveConstruct g
    let rest := moveChain step.1 n
    (step.2 :: rest.1, rest.2)

/-! ## Helper lemmas -/

/-- A chain of `n` move constructions starting from `g` leaves `g`'s two
pointers in the final holder and produces `n` husks, each with `g`'s
value pointer and a nulled mutex pointer. -/
theorem moveChain_eq (g : MutexGuard) (n : Nat) :
    moveChain g n = (List.replicate n { value := g.value, mutex := none }, g) := by
  induction n generalizing g with
  | zero => rfl
  | succ n ih =>
    simp only [moveChain, MutexGuard.moveConstruct, List.replicate]
    exact congrArg (fun p => (_ :: p.1, p.2)) (ih g)

/-- Unlocking a mutex other than `i` does not change whether `i` is locked. -/
theorem World.lockedAt_applyUnlock_ne (w : World) (i j : Nat) (h : j ≠ i) :
    (w.applyUnlock j).lockedAt i = w.lockedAt i := by
  simp only [World.applyUnlock, World.lockedAt, List.getD_eq_getElem?_getD]
  rw [List.getElem?_set_ne h]

/-! ## Claims -/

/-- Claim C1: for every guard obtained from a successful `lock()` or
`try_lock()`, the underlying mutex is unlocked exactly once across the
whole chain of moves: the final holder's destructor performs the single
`unlock()` of that mutex, and every moved-from husk's destructor performs
no unlock at all, however many husks are destroyed. -/
theorem C1_unlock_exactly_once (m m' : Mutex) (a n : Nat) (g : MutexGuard)
    (h : m.lock a = some (m', g) ∨ (m.try_lock a = (m', g) ∧ g.toBool = true)) :
    (moveChain g n).2.destructCalls = [a] ∧
      ∀ husk ∈ (moveChain g n).1, husk.destructCalls = [] := by
  have hg : g = MutexGuard.construct (some a) (some a) := by
    rcases h with h | ⟨h, hb⟩
    · by_cases hm : m.locked = false
      · simp [Mutex.lock, hm] at h
        exact h.2.symm
      · simp [Mutex.lock, hm] at h
    · by_cases hm : m.locked = false
      · simp [Mutex.try_lock, hm] at h
        exact h.2.symm
      · simp [Mutex.try_lock, hm] at h
        rw [← h.2] at hb
        simp [MutexGuard.toBool, MutexGuard.construct] at hb
  subst hg
  rw [moveChain_eq]
  constructor
  · rfl
  · intro husk hh
    have := List.eq_of_mem_replicate hh
    subst this
    rfl

/-- Witness for C1 at a concrete input: a fresh `Mutex` holding 3, locked
at address 0, its guard moved twice. -/
theorem C1_unlock_exactly_once_witness :
    (moveChain (MutexGuard.construct (some 0) (some 0)) 2).2.destructCalls = [0] ∧
      ∀ husk ∈ (moveChain (MutexGuard.construct (some 0) (some 0)) 2).1,
        husk.destructCalls = [] :=
  C1_unlock_exactly_once (Mutex.construct ⟨3, 0⟩)
    { locked := true, value := ⟨3, 1⟩ } 0 2
    (MutexGuard.construct (some 0) (some 0)) (Or.inl (by decide))

/-- Claim C2: constructing a `Mutex` with a value `V` and then calling
`unwrap` returns a value equal to `V` (same payload), and neither
`try_lock` nor `lock` changes the owned value in between. -/
theorem C2_construct_unwrap_roundtrip (v : TVal) (m m' : Mutex) (a b : Nat)
    (g : MutexGuard) (h : m.lock b = some (m', g)) :
    (Mutex.construct v).unwrap.payload = v.payload ∧
    ((m.try_lock a).1).value = m.value ∧
    m'.value = m.value := by
  refine ⟨rfl, ?_, ?_⟩
  · by_cases hm : m.locked = false <;> simp [Mutex.try_lock, hm]
  · by_cases hm : m.locked = false
    · simp [Mutex.lock, hm] at h
      rw [← h.1]
    · simp [Mutex.lock, hm] at h

/-- Witness for C2 at a concrete input: value 7, and a lock of a fresh
`Mutex` holding 9. -/
theorem C2_construct_unwrap_roundtrip_witness :
    (Mutex.construct ⟨7, 0⟩).unwrap.payload = 7 ∧
    (((Mutex.construct ⟨9, 0⟩).try_lock 0).1).value = (Mutex.construct ⟨9, 0⟩).value ∧
    (Mutex.mk true ⟨9, 1⟩).value = (Mutex.construct ⟨9, 0⟩).value :=
  C2_construct_unwrap_roundtrip ⟨7, 0⟩ (Mutex.construct ⟨9, 0⟩)
    (Mutex.mk true ⟨9, 1⟩) 0 0 (MutexGuard.construct (some 0) (some 0)) (by decide)

/-- Claim C3: on a `Mutex` whose primitive is unlocked, `lock()` returns a
guard whose value and mutex pointers are both non-null and whose boolean
conversion is `true`; this is the only guard `lock()` can return, so
`lock()` never produces an invalid guard. -/
theorem C3_lock_valid_guard (m : Mutex) (a : Nat) (h : m.locked = false) :
    m.lock a = some ({ m with locked := true }, MutexGuard.construct (some a) (some a)) ∧
    (MutexGuard.construct (some a) (some a)).value ≠ none ∧
    (MutexGuard.construct (some a) (some a)).mutex ≠ none ∧
    (MutexGuard.construct (some a) (some a)).toBool = true := by
  refine ⟨by simp [Mutex.lock, h], by simp [MutexGuard.construct], by simp [MutexGuard.construct], rfl⟩

/-- Witness for C3 at a concrete input: a fresh `Mutex` holding 5. -/
theorem C3_lock_valid_guard_witness :
    (Mutex.construct ⟨5, 0⟩).lock 0 =
      some ({ Mutex.construct ⟨5, 0⟩ with locked := true },
            MutexGuard.construct (some 0) (some 0)) ∧
    (MutexGuard.construct (some 0) (some 0)).value ≠ none ∧
    (MutexGuard.construct (some 0) (some 0)).mutex ≠ none ∧
    (MutexGuard.construct (some 0) (some 0)).toBool = true :=
  C3_lock_valid_guard (Mutex.construct ⟨5, 0⟩) 0 (by decide)

/-- Claim C4: on a `Mutex` whose primitive is already held, `try_lock()`
returns a guard with both pointers null (boolean conversion `false`) and
has no side effects: the container — primitive state and owned value —
is returned unchanged. -/
theorem C4_try_lock_failure (m : Mutex) (a : Nat) (h : m.locked = true) :
    m.try_lock a = (m, MutexGuard.construct none none) ∧
    (m.try_lock a).2.value = none ∧
    (m.try_lock a).2.mutex = none ∧
    (m.try_lock a).2.toBool = false ∧
    (m.try_lock a).1.locked = m.locked ∧
    (m.try_lock a).1.value = m.value := by
  have : ¬ m.locked = false := by simp [h]
  refine ⟨by simp [Mutex.try_lock, this], ?_, ?_, ?_, ?_, ?_⟩ <;>
    simp [Mutex.try_lock, this, MutexGuard.construct, MutexGuard.toBool]

/-- Witness for C4 at a concrete input: a locked `Mutex` holding 1. -/
theorem C4_try_lock_failure_witness :
    (Mutex.mk true ⟨1, 0⟩).try_lock 0 = (Mutex.mk true ⟨1, 0⟩, MutexGuard.construct none none) ∧
    ((Mutex.mk true ⟨1, 0⟩).try_lock 0).2.value = none ∧
    ((Mutex.mk true ⟨1, 0⟩).try_lock 0).2.mutex = none ∧
    ((Mutex.mk true ⟨1, 0⟩).try_lock 0).2.toBool = false ∧
    ((Mutex.mk true ⟨1, 0⟩).try_lock 0).1.locked = (Mutex.mk true ⟨1, 0⟩).locked ∧
    ((Mutex.mk true ⟨1, 0⟩).try_lock 0).1.value = (Mutex.mk true ⟨1, 0⟩).value :=
  C4_try_lock_failure (Mutex.mk true ⟨1, 0⟩) 0 (by decide)

/-- Claim C5 counterexample: the constructor initializer `value(value)`
copy-constructs the member from the parameter, so the stored value is a
copy — not a move — of the initial value: constructing from `⟨5, 0⟩`
does not leave the copy count at 0 as a move would. -/
theorem C5_counterexample :
    ¬ ((Mutex.construct ⟨5, 0⟩).value = TVal.moveCtor ⟨5, 0⟩) := by decide

/-- Claim C5 (amended): the `Mutex` constructor takes its initial value by
value and copy-constructs the member from it (one copy, same payload) —
not by move — and initializes the primitive unlocked; construction
always succeeds. -/
theorem C5_amended_copies_value (v : TVal) :
    (Mutex.construct v).value = v.copyCtor ∧
    (Mutex.construct v).value.payload = v.payload ∧
    (Mutex.construct v).value.copies = v.copies + 1 ∧
    (Mutex.construct v).locked = false :=
  ⟨rfl, rfl, rfl, rfl⟩

/-- Claim C6 counterexample: a guard reachable through the public
interface violates the "null together or non-null together" invariant:
lock a fresh `Mutex` at address 0, then move-construct from the
resulting guard; the moved-from source keeps `value = some 0` while its
`mutex` pointer is `none`. -/
theorem C6_counterexample :
    (Mutex.construct ⟨0, 0⟩).lock 0 =
      some (Mutex.mk true ⟨0, 1⟩, MutexGuard.construct (some 0) (some 0)) ∧
    (MutexGuard.moveConstruct (MutexGuard.construct (some 0) (some 0))).2.value = some 0 ∧
    (MutexGuard.moveConstruct (MutexGuard.construct (some 0) (some 0))).2.mutex = none := by
  decide

/-- Claim C6 (amended): guards returned by `lock()` and `try_lock()` and
the destinations of moves satisfy the two-pointer invariant (assuming
the move source did), but the moved-from source of a move keeps its
value pointer while its mutex pointer is nulled, so moved-from guards
can violate it; validity is governed by the mutex pointer alone. -/
theorem C6_amended_invariant (m m2 : Mutex) (a : Nat) (g d : MutexGuard)
    (hg : g.value = none ↔ g.mutex = none) :
    (∀ p ∈ m.lock a, (p.2.value = none ↔ p.2.mutex = none)) ∧
    ((m2.try_lock a).2.value = none ↔ (m2.try_lock a).2.mutex = none) ∧
    ((MutexGuard.moveConstruct g).1.value = none ↔
      (MutexGuard.moveConstruct g).1.mutex = none) ∧
    ((MutexGuard.moveAssign d g).1.value = none ↔
      (MutexGuard.moveAssign d g).1.mutex = none) ∧
    (MutexGuard.moveConstruct g).2.mutex = none ∧
    (MutexGuard.moveConstruct g).2.value = g.value := by
  refine ⟨?_, ?_, hg, hg, rfl, rfl⟩
  · intro p hp
    by_cases hm : m.locked = false
    · simp [Mutex.lock, hm] at hp
      rw [← hp]
      simp [MutexGuard.construct]
    · simp [Mutex.lock, hm] at hp
  · by_cases hm : m2.locked = false <;>
      simp [Mutex.try_lock, hm, MutexGuard.construct]

/-- Witness for the amended C6 at concrete inputs: a fresh unlocked
`Mutex`, a locked one, a valid guard and an empty destination. -/
theorem C6_amended_invariant_witness :
    (∀ p ∈ (Mutex.construct ⟨0, 0⟩).lock 1, (p.2.value = none ↔ p.2.mutex = none)) ∧
    (((Mutex.mk true ⟨0, 0⟩).try_lock 1).2.value = none ↔
      ((Mutex.mk true ⟨0, 0⟩).try_lock 1).2.mutex = none) ∧
    ((MutexGuard.moveConstruct (MutexGuard.construct (some 0) (some 0))).1.value = none ↔
      (MutexGuard.moveConstruct (MutexGuard.construct (some 0) (some 0))).1.mutex = none) ∧
    ((MutexGuard.moveAssign (MutexGuard.construct none none)
        (MutexGuard.construct (some 0) (some 0))).1.value = none ↔
      (MutexGuard.moveAssign (MutexGuard.construct none none)
        (MutexGuard.construct (some 0) (some 0))).1.mutex = none) ∧
    (MutexGuard.moveConstruct (MutexGuard.construct (some 0) (some 0))).2.mutex = none ∧
    (MutexGuard.moveConstruct (MutexGuard.construct (some 0) (some 0))).2.value = some 0 :=
  C6_amended_invariant (Mutex.construct ⟨0, 0⟩) (Mutex.mk true ⟨0, 0⟩) 1
    (MutexGuard.construct (some 0) (some 0)) (MutexGuard.construct none none)
    (by decide)

/-- Claim C7: guard move-assignment does not release the destination's
previously held lock before overwriting it: the body performs no
`unlock()` call, the world of lock states is unchanged (so the mutex the
destination pointed to remains locked — leaked), only the destination's
pointer fields change (they become the source's), and even destroying
both resulting guards afterwards never unlocks that mutex. -/
theorem C7_move_assign_leaks_lock (w : World) (dest src : MutexGuard) (i : Nat)
    (hd : dest.mutex = some i) (hw : w.lockedAt i = true)
    (hs : src.mutex ≠ some i) :
    (MutexGuard.moveAssign dest src).2.2 = [] ∧
    World.applyUnlocks w (MutexGuard.moveAssign dest src).2.2 = w ∧
    (MutexGuard.moveAssign dest src).1 = { value := src.value, mutex := src.mutex } ∧
    (World.applyUnlocks w
        ((MutexGuard.moveAssign dest src).1.destructCalls ++
          (MutexGuard.moveAssign dest src).2.1.destructCalls)).lockedAt i = true := by
  refine ⟨rfl, rfl, rfl, ?_⟩
  simp only [MutexGuard.moveAssign, MutexGuard.destructCalls]
  match hsrc : src.mutex with
  | none => simpa [World.applyUnlocks] using hw
  | some j =>
    have hj : j ≠ i := fun h => hs (h ▸ hsrc)
    simp only [World.applyUnlocks, List.append_nil, List.foldl]
    rw [World.lockedAt_applyUnlock_ne w i j hj]
    exact hw

/-- Witness for C7 at a concrete input: two locked mutexes at addresses 0
and 1, destination guard holding 0, source guard holding 1. -/
theorem C7_move_assign_leaks_lock_witness :
    (MutexGuard.moveAssign (MutexGuard.construct (some 0) (some 0))
        (MutexGuard.construct (some 1) (some 1))).2.2 = [] ∧
    World.applyUnlocks [true, true]
        (MutexGuard.moveAssign (MutexGuard.construct (some 0) (some 0))
          (MutexGuard.construct (some 1) (some 1))).2.2 = [true, true] ∧
    (MutexGuard.moveAssign (MutexGuard.construct (some 0) (some 0))
        (MutexGuard.construct (some 1) (some 1))).1 =
      { value := some 1, mutex := some 1 } ∧
    (World.applyUnlocks [true, true]
        ((MutexGuard.moveAssign (MutexGuard.construct (some 0) (some 0))
            (MutexGuard.construct (some 1) (some 1))).1.destructCalls ++
          (MutexGuard.moveAssign (MutexGuard.construct (some 0) (some 0))
            (MutexGuard.construct (some 1) (some 1))).2.1.destructCalls)).lockedAt 0 = true :=
  C7_move_assign_leaks_lock [true, true] (MutexGuard.construct (some 0) (some 0))
    (MutexGuard.construct (some 1) (some 1)) 0 rfl rfl (by decide)

/-- Claim C8: the claim says moving a `Mutex` transfers the primitive and
the value; but the defaulted move operations are implicitly deleted,
because the `std::mutex` member is neither movable nor copyable, so a
`Mutex` can never be move-constructed or move-assigned at all —
regardless of whether `T` itself is movable. -/
theorem C8_mutex_move_deleted :
    ∀ tMovable : Bool, Mutex.moveConstructible tMovable = false := by
  decide

/-- Claim C9: move-assigning a valid guard to itself nulls its own mutex
pointer: afterwards the boolean conversion is `false`, its destructor
performs no `unlock()`, and the underlying mutex stays locked with no
remaining holder to release it. -/
theorem C9_self_move_assign_loses_lock (g : MutexGuard) (w : World) (i : Nat)
    (hg : g.mutex = some i) (hw : w.lockedAt i = true) :
    g.selfMoveAssign.mutex = none ∧
    g.selfMoveAssign.toBool = false ∧
    g.selfMoveAssign.destructCalls = [] ∧
    (World.applyUnlocks w g.selfMoveAssign.destructCalls).lockedAt i = true := by
  exact ⟨rfl, rfl, rfl, hw⟩

/-- Witness for C9 at a concrete input: a valid guard on the locked mutex
at address 0. -/
theorem C9_self_move_assign_loses_lock_witness :
    (MutexGuard.construct (some 0) (some 0)).selfMoveAssign.mutex = none ∧
    (MutexGuard.construct (some 0) (some 0)).selfMoveAssign.toBool = false ∧
    (MutexGuard.construct (some 0) (some 0)).selfMoveAssign.destructCalls = [] ∧
    (World.applyUnlocks [true]
        (MutexGuard.construct (some 0) (some 0)).selfMoveAssign.destructCalls).lockedAt 0 = true :=
  C9_self_move_assign_loses_lock (MutexGuard.construct (some 0) (some 0)) [true] 0
    rfl rfl

/-- Claim C10: the body of `MutexGuard &operator=(MutexGuard &&)` contains
no return statement, so control falls off the end of a function declared
to return `MutexGuard&` — contrary to the claim that it returns a
reference to the assigned-to object on every call. -/
theorem C10_move_assign_falls_off_end :
    bodyReturns moveAssignBody = false := by decide
